import Mathlib

/-!
Shallow embedding of the change-detection and idempotent dispatch loop of the
neural-sales-mvp repository (src/auditor_vendas.py, the local variant, and
src/cloud_worker.py, the remote variant), together with theorems settling the
spec claims about it.

External collaborators (the supabase client, the language-model provider, the
wall clock and the filesystem/object store) are modelled as explicit inputs:
association lists for the ledger table and the storage buckets, `Except`
values for fallible remote calls, and boolean flags for the points where the
Python code can raise.

The Python string builtins used by the code (`str.split`, `str.replace`,
`str.strip`, `str.endswith`, `in`, `str(int)`) are embedded as structurally
recursive functions over `List Char`, so that every definition evaluates
inside the kernel.
-/

/-! ## Python string builtins -/

/-- The whitespace characters stripped by Python's `str.strip()`. -/
def pyIsSpace (c : Char) : Bool :=
  c = ' ' || c = '\t' || c = '\n' || c = '\r' || c = '\x0b' || c = '\x0c'

/-- Python `s.strip()`: drop leading and trailing whitespace. -/
def pyStrip (s : String) : String :=
  (((s.data.dropWhile pyIsSpace).reverse.dropWhile pyIsSpace).reverse).asString

/-- Worker for `pySplit`: scan the character list left to right, splitting at
each non-overlapping occurrence of `sep`.  The fuel argument makes the
recursion structural; `pySplit` supplies enough fuel for the scan to finish. -/
def pySplitAux (sep : List Char) : Nat → List Char → List Char → List (List Char)
  | _, [], acc => [acc.reverse]
  | 0, rest, acc => [acc.reverse ++ rest]
  | fuel+1, c :: rest, acc =>
      if sep ≠ [] ∧ sep.isPrefixOf (c :: rest) then
        acc.reverse :: pySplitAux sep fuel (List.drop sep.length (c :: rest)) []
      else
        pySplitAux sep fuel rest (c :: acc)

/-- Python `s.split(sep)` for a non-empty separator. -/
def pySplit (s sep : String) : List String :=
  (pySplitAux sep.data (s.data.length + 1) s.data []).map List.asString

/-- Python `s.replace(pat, repl)` for a non-empty pattern: replace every
non-overlapping occurrence left to right (equal to `repl.join(s.split(pat))`). -/
def pyReplace (s pat repl : String) : String :=
  (List.intercalate repl.data (pySplitAux pat.data (s.data.length + 1) s.data [])).asString

/-- Python `s.endswith(suffix)`. -/
def pyEndsWith (s suffix : String) : Bool :=
  suffix.data.isSuffixOf s.data

/-- Python `c in s` for a single character `c`. -/
def pyContainsChar (s : String) (c : Char) : Bool :=
  s.data.contains c

/-- Decimal digit characters, as produced by Python `str(int)`. -/
def pyDigitChar (n : Nat) : Char :=
  if n = 0 then '0' else if n = 1 then '1' else if n = 2 then '2'
  else if n = 3 then '3' else if n = 4 then '4' else if n = 5 then '5'
  else if n = 6 then '6' else if n = 7 then '7' else if n = 8 then '8'
  else if n = 9 then '9' else '*'

/-- Worker for `natToString`, structural in the fuel argument. -/
def natToDigitsAux : Nat → Nat → List Char → List Char
  | 0, _, acc => acc
  | fuel+1, n, acc =>
      if n < 10 then pyDigitChar n :: acc
      else natToDigitsAux fuel (n / 10) (pyDigitChar (n % 10) :: acc)

/-- Python `str(n)` for a natural number: its decimal rendering. -/
def natToString (n : Nat) : String :=
  (natToDigitsAux (n + 1) n []).asString

/-! ## Shared data model: the Memory Ledger -/

/-- Point lookup in an association list keyed by `String`
(models a supabase point lookup by primary key, and object lookup in a bucket). -/
def lookupKey {α : Type} : List (String × α) → String → Option α
  | [], _ => none
  | (k, v) :: rest, key => if k = key then some v else lookupKey rest key

/-- Remove every entry with the given key (models object deletion and the
replace half of an upsert). -/
def removeKey {α : Type} : List (String × α) → String → List (String × α)
  | [], _ => []
  | (k, v) :: rest, key =>
      if k = key then removeKey rest key else (k, v) :: removeKey rest key

/-- A row of the `sales_memory` table: the Memory Ledger record for one
logical path.  `last_summary` is nullable in the database (the code can upsert
`None` when analysis failed for a path with no prior summary). -/
structure LedgerRow where
  salesperson : String
  last_hash : String
  last_summary : Option String
deriving DecidableEq

/-- The `sales_memory` table, keyed by `file_path`. -/
abbrev Ledger := List (String × LedgerRow)

/-- Embedding of `get_file_state` (src/auditor_vendas.py lines 34-48).
`err = true` models the `except` branch (any supabase connectivity error),
which returns `(None, None)`; an absent record also yields `(None, None)`. -/
def get_file_state (err : Bool) (ledger : Ledger) (file_path : String) :
    Option String × Option String :=
  if err then (none, none)
  else
    match lookupKey ledger file_path with
    | some r => (some r.last_hash, r.last_summary)
    | none => (none, none)

/-- Embedding of `update_file_state` (src/auditor_vendas.py lines 50-64):
an upsert keyed by `file_path` ("last writer wins"); `err = true` models its
`except` branch, where the write error is only logged and the table is left
unchanged. -/
def update_file_state (err : Bool) (ledger : Ledger) (file_path salesperson
    current_hash : String) (summary : Option String) : Ledger :=
  if err then ledger
  else (file_path, ⟨salesperson, current_hash, summary⟩) :: removeKey ledger file_path

/-! ## The Analyzer adapter -/

/-- Embedding of the response handling of `analyze_update`
(src/auditor_vendas.py lines 104-115).  The external model call is an input:
`.error` models any transport or provider exception, caught and converted to
the degraded result `("Erro na análise.", previous_summary)`; `.ok content`
is the response text, split on the `[RESUMO]` marker exactly as
`content.split("[RESUMO]")` does, with `parts[1]` taken when it exists and
the literal `"Resumo mantido."` otherwise. -/
def analyze_update (previous_summary : Option String)
    (llmResponse : Except Unit String) : String × Option String :=
  match llmResponse with
  | .error _ => ("Erro na análise.", previous_summary)
  | .ok content =>
      let parts := pySplit content "[RESUMO]"
      let report := pyStrip (pyReplace (parts.headD "") "[RELATORIO]" "")
      let new_summary :=
        match parts with
        | _ :: second :: _ => pyStrip second
        | _ => "Resumo mantido."
      (report, some new_summary)

/-! ## The local Dispatcher (src/auditor_vendas.py, start_watchdog) -/

/-- One work item discovered by `os.walk` one level below `inputs/`:
its owner folder, its filename, and the bytes currently on disk. -/
structure LocalItem where
  folder : String
  filename : String
  content : String
deriving DecidableEq

/-- The logical path of a local work item:
`os.path.relpath(full_path, INPUT_ROOT)`, i.e. `folder/filename`. -/
def relPath (it : LocalItem) : String :=
  it.folder ++ "/" ++ it.filename

/-- External collaborators of one local poll cycle, keyed by logical path:
the content digest (`hashlib.md5`, deterministic in the bytes), the points
where file I/O can raise, the model call, the supabase error branches, and
the wall clock at the moment each item is processed. -/
structure LocalEnv where
  md5 : String → String
  readFails : String → Bool
  writeFails : String → Bool
  llm : String → Except Unit String
  getErr : String → Bool
  upsertErr : String → Bool
  clock : String → Nat

/-- The local report name
`f"AUDITORIA_{filename.replace('.txt', '')}_{timestamp}.md"`
(src/auditor_vendas.py line 156). -/
def report_filename (filename : String) (timestamp : Nat) : String :=
  "AUDITORIA_" ++ pyReplace filename ".txt" "" ++ "_" ++ natToString timestamp ++ ".md"

/-- The location the local Report Sink stores a report under:
`os.path.join(OUTPUT_ROOT, current_folder_name, report_filename)`. -/
def report_path (folder filename : String) (timestamp : Nat) : String :=
  "outputs/" ++ folder ++ "/" ++ report_filename filename timestamp

/-- The local Report Sink: `open(path, "w")` truncates, so a write replaces
any previous object stored under the same name. -/
abbrev Sink := List (String × String)

/-- Write a report, overwriting any previous report with the same name. -/
def sink_write (sink : Sink) (name content : String) : Sink :=
  (name, content) :: removeKey sink name

/-- Embedding of the per-item body of `start_watchdog`
(src/auditor_vendas.py lines 132-163).  Returns `.error ()` when an uncaught
exception escapes the item (file I/O: the loop body has no `try/except` of
its own, only the outer `except KeyboardInterrupt`); otherwise returns the
new ledger, the new report sink, and the number of Analyzer calls and of
Ledger upsert calls made for this item. -/
def processItem (env : LocalEnv) (ledger : Ledger) (sink : Sink)
    (it : LocalItem) : Except Unit (Ledger × Sink × Nat × Nat) :=
  if pyEndsWith it.filename ".txt" = true then
    if env.readFails (relPath it) = true then .error ()
    else
      let current_hash := env.md5 it.content
      let st := get_file_state (env.getErr (relPath it)) ledger (relPath it)
      if some current_hash ≠ st.1 then
        let res := analyze_update st.2 (env.llm (relPath it))
        if env.writeFails (relPath it) = true then .error ()
        else
          .ok (update_file_state (env.upsertErr (relPath it)) ledger (relPath it)
                 it.folder current_hash res.2,
               sink_write sink (report_path it.folder it.filename (env.clock (relPath it))) res.1,
               1, 1)
      else .ok (ledger, sink, 0, 0)
  else .ok (ledger, sink, 0, 0)

/-- One full local poll cycle over the items `os.walk` discovered, in listing
order.  An uncaught per-item exception aborts the cycle (and, in the source,
the whole process, since only `KeyboardInterrupt` is caught outside the
`while True` loop). -/
def runCycleLocal (env : LocalEnv) (ledger : Ledger) (sink : Sink) :
    List LocalItem → Except Unit (Ledger × Sink × Nat × Nat)
  | [] => .ok (ledger, sink, 0, 0)
  | it :: rest => do
      let (l1, s1, a1, w1) ← processItem env ledger sink it
      let (l2, s2, a2, w2) ← runCycleLocal env l1 s1 rest
      .ok (l2, s2, a1 + a2, w1 + w2)

/-! ## The remote worker (src/cloud_worker.py) -/

/-- The state the remote worker acts on: the input bucket `sales-logs`
(key, object bytes), the output bucket `sales-reports`, and the
`sales_memory` table (present in the database, but — as the theorems below
record — never touched by this variant). -/
structure CloudState where
  bucketIn : List (String × String)
  bucketOut : List (String × String)
  ledger : Ledger
deriving DecidableEq

/-- External collaborators of the remote worker, keyed by vendor namespace
(for `listing`) or by object path (for the rest): the listing call, the
points where download/upload/removal can raise, the model call, and the wall
clock at the moment each object is processed. -/
structure CloudEnv where
  listing : String → Except Unit (List String)
  dlFails : String → Bool
  llm : String → Except Unit String
  upFails : String → Bool
  rmFails : String → Bool
  clock : String → Nat

/-- The remote report name
`f"RELATORIO_{file_path.replace('/', '_')}_{int(time.time())}.md"`
(src/cloud_worker.py line 47). -/
def cloud_report_name (file_path : String) (timestamp : Nat) : String :=
  "RELATORIO_" ++ pyReplace file_path "/" "_" ++ "_" ++ natToString timestamp ++ ".md"

/-- Embedding of `process_file` (src/cloud_worker.py lines 36-61): download,
analyze, upload the report, then delete the input object; every exception is
caught by the function's own `try/except`, which returns `False` — a missing
object or `dlFails` models a download error, `.error` from the model a
provider error, `upFails`/`rmFails` storage errors on the two mutations. -/
def process_file (env : CloudEnv) (st : CloudState) (file_path : String) :
    CloudState × Bool :=
  if env.dlFails file_path = true then (st, false)
  else
    match lookupKey st.bucketIn file_path with
    | none => (st, false)
    | some _text =>
      match env.llm file_path with
      | .error _ => (st, false)
      | .ok analysis =>
        if env.upFails file_path = true then (st, false)
        else
          let st1 : CloudState :=
            { st with bucketOut :=
                (cloud_report_name file_path (env.clock file_path), analysis) :: st.bucketOut }
          if env.rmFails file_path = true then (st1, false)
          else ({ st1 with bucketIn := removeKey st1.bucketIn file_path }, true)

/-- The normalization of a listing entry (src/cloud_worker.py line 81): keep
a full path as is, prepend the vendor namespace to a bare filename. -/
def normalize_listing_name (vendedor fname : String) : String :=
  if pyContainsChar fname '/' = true then fname else vendedor ++ "/" ++ fname

/-- The inner loop over one vendor's listing entries
(src/cloud_worker.py lines 76-83): filter to `.txt` names, normalize each to
the canonical `owner/filename` key, and process it. -/
def processEntries (env : CloudEnv) (vendedor : String) (st : CloudState) :
    List String → CloudState
  | [] => st
  | fname :: rest =>
      if pyEndsWith fname ".txt" = true then
        processEntries env vendedor
          (process_file env st (normalize_listing_name vendedor fname)).1 rest
      else processEntries env vendedor st rest

/-- The fixed vendor namespaces polled by the worker (src/cloud_worker.py line 65). -/
def vendedores : List String := ["Vendedor_Ana", "Vendedor_Bruno", "Vendedor_Carlos"]

/-- The worker's poll-loop body over a list of namespaces: a listing failure
raises out of the `for` loop into the `except` branch, which sleeps 30
seconds and ends the cycle; the normal path ends with the same
`time.sleep(30)`.  Returns the final state and the sleep duration in
seconds. -/
def worker_cycle_go (env : CloudEnv) (st : CloudState) :
    List String → CloudState × Nat
  | [] => (st, 30)
  | v :: rest =>
      match env.listing v with
      | .error _ => (st, 30)
      | .ok entries => worker_cycle_go env (processEntries env v st entries) rest

/-- One full cycle of `worker_loop` (src/cloud_worker.py lines 67-90). -/
def worker_cycle (env : CloudEnv) (st : CloudState) : CloudState × Nat :=
  worker_cycle_go env st vendedores

/-- The spec-side change predicate, modelled from the spec (§4.1):
`has_changed(path, digest)` is true iff no prior record exists for `path`, or
the prior record's digest differs from `digest`.  Used to compare the
Dispatcher's behaviour against the spec's wording. -/
def spec_has_changed (ledger : Ledger) (path digest : String) : Prop :=
  lookupKey ledger path = none ∨ ∃ r, lookupKey ledger path = some r ∧ r.last_hash ≠ digest

/-- Proof-side specification of the decimal rendering of a natural number:
most significant digit first. -/
def decDigits (n : Nat) : List Char :=
  if _h : n < 10 then [pyDigitChar n]
  else decDigits (n / 10) ++ [pyDigitChar (n % 10)]
decreasing_by exact Nat.div_lt_self (by omega) (by omega)

/-! ## Concrete inputs used by counterexamples and witnesses -/

/-- C1 failing input: the model call raises for every path, the current bytes
hash to `"h1"`, all other collaborators behave. -/
def c1Env : LocalEnv :=
  { md5 := fun _ => "h1", readFails := fun _ => false, writeFails := fun _ => false,
    llm := fun _ => .error (), getErr := fun _ => false, upsertErr := fun _ => false,
    clock := fun _ => 7 }

/-- C1 pre-cycle ledger: the path was last analyzed at digest `"h0"`. -/
def c1Ledger : Ledger := [("Ana/f.txt", ⟨"Ana", "h0", some "S0"⟩)]

/-- C1 work item: same path, content now hashing to `"h1"`. -/
def c1Item : LocalItem := ⟨"Ana", "f.txt", "conteudo novo"⟩

/-- C2 witness environment: everything behaves; the model answers with both
markers present. -/
def c2Env : LocalEnv :=
  { md5 := fun _ => "h2", readFails := fun _ => false, writeFails := fun _ => false,
    llm := fun _ => .ok "[RELATORIO]\nok\n[RESUMO]\nnovo", getErr := fun _ => false,
    upsertErr := fun _ => false, clock := fun _ => 9 }

/-- C2 witness work item. -/
def c2Item : LocalItem := ⟨"Bruno", "x.txt", "A"⟩

/-- The ledger after the C2 witness item is processed once from an empty ledger. -/
def c2RunLedger : Ledger := [("Bruno/x.txt", ⟨"Bruno", "h2", some "novo"⟩)]

/-- The report sink after the C2 witness item is processed once. -/
def c2RunSink : Sink := [("outputs/Bruno/AUDITORIA_x_9.md", "ok")]

/-- C3 environment: download, model, upload and removal all behave. -/
def c3Env : CloudEnv :=
  { listing := fun _ => .ok ["cliente1.txt"], dlFails := fun _ => false,
    llm := fun _ => .ok "analise", upFails := fun _ => false, rmFails := fun _ => false,
    clock := fun _ => 1700000000 }

/-- C3 initial state: the item sits in the input bucket, the output bucket is
empty, the ledger is empty. -/
def c3St : CloudState := ⟨[("Vendedor_Ana/cliente1.txt", "ola")], [], []⟩

/-- C6 environment whose listing call fails for every namespace. -/
def c6EnvFail : CloudEnv :=
  { listing := fun _ => .error (), dlFails := fun _ => false, llm := fun _ => .ok "a",
    upFails := fun _ => false, rmFails := fun _ => false, clock := fun _ => 0 }

/-- C6 environment whose listing call succeeds (steady state, empty listings). -/
def c6EnvOk : CloudEnv := { c6EnvFail with listing := fun _ => .ok [] }

/-- C6 initial state. -/
def c6St : CloudState := ⟨[("Vendedor_Ana/c.txt", "oi")], [], []⟩

/-- C7 environment: reading any file raises (e.g. the file vanished between
listing and hashing); everything else behaves. -/
def c7Env : LocalEnv :=
  { md5 := fun _ => "h", readFails := fun _ => true, writeFails := fun _ => false,
    llm := fun _ => .ok "x", getErr := fun _ => false, upsertErr := fun _ => false,
    clock := fun _ => 0 }

/-- C7 first work item, whose read raises. -/
def c7Bad : LocalItem := ⟨"Ana", "a.txt", "A"⟩

/-- C7 second work item, never reached in the failing cycle. -/
def c7Good : LocalItem := ⟨"Ana", "b.txt", "B"⟩

/-- C7 environment where only the model call fails. -/
def c7EnvLLM : LocalEnv :=
  { md5 := fun _ => "h", readFails := fun _ => false, writeFails := fun _ => false,
    llm := fun _ => .error (), getErr := fun _ => false, upsertErr := fun _ => false,
    clock := fun _ => 0 }

/-- C7 environment where only the report write raises. -/
def c7EnvWrite : LocalEnv :=
  { md5 := fun _ => "h", readFails := fun _ => false, writeFails := fun _ => true,
    llm := fun _ => .ok "x", getErr := fun _ => false, upsertErr := fun _ => false,
    clock := fun _ => 0 }

/-- C7 remote environment where every download raises. -/
def c7CloudEnv : CloudEnv :=
  { listing := fun _ => .ok [], dlFails := fun _ => true, llm := fun _ => .ok "a",
    upFails := fun _ => false, rmFails := fun _ => false, clock := fun _ => 0 }

/-- C7 remote initial state. -/
def c7CloudSt : CloudState := ⟨[], [], []⟩

/-- C8 witness environment: supabase lookups error out, everything else
behaves; the ledger already holds the item's current digest, yet the item is
reprocessed. -/
def c8Env : LocalEnv :=
  { md5 := fun _ => "h", readFails := fun _ => false, writeFails := fun _ => false,
    llm := fun _ => .ok "[RELATORIO]\nok\n[RESUMO]\nnovo", getErr := fun _ => true,
    upsertErr := fun _ => false, clock := fun _ => 5 }

/-- C10 environment where every download raises. -/
def c10EnvFail : CloudEnv :=
  { listing := fun _ => .ok [], dlFails := fun _ => true, llm := fun _ => .ok "a",
    upFails := fun _ => false, rmFails := fun _ => false, clock := fun _ => 3 }

/-- C10 environment where every call behaves. -/
def c10EnvOk : CloudEnv := { c10EnvFail with dlFails := fun _ => false }

/-- C10 initial state: one object in the input bucket. -/
def c10St : CloudState := ⟨[("Vendedor_Ana/c.txt", "oi")], [], []⟩

/-! ## Supporting lemmas -/

theorem lookupKey_removeKey_self {α : Type} (l : List (String × α)) (k : String) :
    lookupKey (removeKey l k) k = none := by
  induction l with
  | nil => rfl
  | cons p rest ih =>
    obtain ⟨k', v⟩ := p
    by_cases h : k' = k
    · simp [removeKey, h, ih]
    · simp [removeKey, lookupKey, h, ih]

theorem string_data_append (a b : String) : (a ++ b).data = a.data ++ b.data := rfl

theorem contains_char_append_middle (l1 l2 : List Char) :
    (l1 ++ '/' :: l2).contains '/' = true := by
  induction l1 with
  | nil => simp [List.contains]
  | cons c rest ih => simp [List.contains, Or.inr ih]

theorem decDigits_concat (n : Nat) :
    decDigits n = (if n < 10 then [] else decDigits (n / 10)) ++ [pyDigitChar (n % 10)] := by
  rw [decDigits]
  by_cases h : n < 10
  · simp [h, Nat.mod_eq_of_lt h]
  · simp [h]

theorem decDigits_ne_nil (n : Nat) : decDigits n ≠ [] := by
  rw [decDigits_concat]
  simp

theorem pyDigitChar_inj_lt :
    ∀ a, a < 10 → ∀ b, b < 10 → pyDigitChar a = pyDigitChar b → a = b := by decide

theorem decDigits_injective : ∀ m n : Nat, decDigits m = decDigits n → m = n := by
  intro m
  induction m using Nat.strong_induction_on with
  | _ m ih =>
    intro n h
    rw [decDigits_concat m, decDigits_concat n] at h
    obtain ⟨hfront, hlast⟩ := List.append_inj' h (by simp)
    have hdig : m % 10 = n % 10 :=
      pyDigitChar_inj_lt (m % 10) (Nat.mod_lt m (by omega)) (n % 10)
        (Nat.mod_lt n (by omega)) (by simpa using hlast)
    by_cases hm : m < 10
    · by_cases hn : n < 10
      · omega
      · rw [if_pos hm, if_neg hn] at hfront
        exact absurd hfront.symm (decDigits_ne_nil (n / 10))
    · by_cases hn : n < 10
      · rw [if_neg hm, if_pos hn] at hfront
        exact absurd hfront (decDigits_ne_nil (m / 10))
      · rw [if_neg hm, if_neg hn] at hfront
        have hdiv : m / 10 = n / 10 :=
          ih (m / 10) (Nat.div_lt_self (by omega) (by omega)) (n / 10) hfront
        omega

theorem natToDigitsAux_eq (fuel : Nat) :
    ∀ n acc, n < 10 ^ (fuel + 1) →
      natToDigitsAux (fuel + 1) n acc = decDigits n ++ acc := by
  induction fuel with
  | zero =>
    intro n acc h
    have hn : n < 10 := by simpa using h
    rw [natToDigitsAux, decDigits]
    simp [hn]
  | succ fuel ih =>
    intro n acc h
    by_cases hn : n < 10
    · rw [natToDigitsAux, decDigits]
      simp [hn]
    · rw [natToDigitsAux]
      simp only [hn, if_false]
      have hdiv : n / 10 < 10 ^ (fuel + 1) := by
        rw [Nat.div_lt_iff_lt_mul (by omega : 0 < 10)]
        calc n < 10 ^ (fuel + 2) := h
        _ = 10 ^ (fuel + 1) * 10 := by ring
      rw [ih (n / 10) _ hdiv, decDigits_concat n]
      simp [hn, List.append_assoc]

theorem natToString_eq_decDigits (n : Nat) :
    natToString n = (decDigits n).asString := by
  have h2 : n < 2 ^ n := Nat.lt_two_pow n
  have h10 : (2 : Nat) ^ n ≤ 10 ^ n := Nat.pow_le_pow_left (by omega) n
  have h10s : (10 : Nat) ^ n ≤ 10 ^ (n + 1) :=
    Nat.pow_le_pow_right (by omega) (Nat.le_succ n)
  rw [natToString, natToDigitsAux_eq n n [] (by omega)]
  simp

theorem natToString_injective (m n : Nat) (h : natToString m = natToString n) :
    m = n := by
  rw [natToString_eq_decDigits, natToString_eq_decDigits] at h
  exact decDigits_injective m n (List.asString_inj.mp h)

theorem natToString_data (n : Nat) : (natToString n).data = decDigits n := by
  rw [natToString_eq_decDigits]
  rfl

/-- The change test the local Dispatcher performs (`current_hash != last_hash`
against the ledger's answer) is exactly the spec's `has_changed` predicate. -/
theorem changed_iff (ledger : Ledger) (path digest : String) :
    (some digest ≠ (get_file_state false ledger path).1) ↔
      spec_has_changed ledger path digest := by
  unfold spec_has_changed get_file_state
  cases hlk : lookupKey ledger path with
  | none => simp
  | some r => simp [ne_comm]

/-- Under working file I/O and a working ledger lookup, the per-item body
reduces to the two-way branch on the change test. -/
theorem processItem_run (env : LocalEnv) (ledger : Ledger) (sink : Sink) (it : LocalItem)
    (htxt : pyEndsWith it.filename ".txt" = true)
    (hr : env.readFails (relPath it) = false)
    (hw : env.writeFails (relPath it) = false)
    (hg : env.getErr (relPath it) = false) :
    processItem env ledger sink it =
      if some (env.md5 it.content) ≠ (get_file_state false ledger (relPath it)).1 then
        .ok (update_file_state (env.upsertErr (relPath it)) ledger (relPath it) it.folder
               (env.md5 it.content)
               (analyze_update (get_file_state false ledger (relPath it)).2
                 (env.llm (relPath it))).2,
             sink_write sink (report_path it.folder it.filename (env.clock (relPath it)))
               (analyze_update (get_file_state false ledger (relPath it)).2
                 (env.llm (relPath it))).1,
             1, 1)
      else .ok (ledger, sink, 0, 0) := by
  simp [processItem, htxt, hr, hw, hg]

/-- When the ledger already stores the item's current digest, the per-item
body is a no-op: no Analyzer call, no Ledger write, nothing changes. -/
theorem processItem_noop (env : LocalEnv) (ledger : Ledger) (sink : Sink) (it : LocalItem)
    (htxt : pyEndsWith it.filename ".txt" = true)
    (hr : env.readFails (relPath it) = false)
    (hg : env.getErr (relPath it) = false)
    (hsame : (get_file_state false ledger (relPath it)).1 = some (env.md5 it.content)) :
    processItem env ledger sink it = .ok (ledger, sink, 0, 0) := by
  simp [processItem, htxt, hr, hg, hsame]

/-- Both branches of the worker loop end in `time.sleep(30)`. -/
theorem worker_cycle_go_sleep (env : CloudEnv) :
    ∀ (l : List String) (st : CloudState), (worker_cycle_go env st l).2 = 30 := by
  intro l
  induction l with
  | nil => intro st; rfl
  | cons v rest ih =>
    intro st
    cases hres : env.listing v with
    | error e => simp [worker_cycle_go, hres]
    | ok entries => simp [worker_cycle_go, hres, ih]

/-! ## Claim theorems -/

/-- C1: the claim says a failed analysis must leave the ledger's stored
digest unchanged.  On the failing input the code does record the degraded
result (placeholder report, summary passed through) but it ALSO advances the
ledger digest from `"h0"` to the new content hash `"h1"`: `start_watchdog`
calls `update_file_state` with `current_hash` unconditionally, even when
`analyze_update` caught a provider error.  This evaluates the embedded code
at the failing input and exhibits the divergence. -/
theorem c1_failed_analysis_advances_ledger_digest :
    processItem c1Env c1Ledger [] c1Item =
      .ok ([("Ana/f.txt", ⟨"Ana", "h1", some "S0"⟩)],
           [("outputs/Ana/AUDITORIA_f_7.md", "Erro na análise.")], 1, 1)
    ∧ lookupKey c1Ledger "Ana/f.txt" = some ⟨"Ana", "h0", some "S0"⟩
    ∧ ("h1" : String) ≠ "h0" :=
  ⟨rfl, by decide, by decide⟩

/-- C2: in local mode, under working file I/O and a working ledger, the
Dispatcher performs exactly one Analyzer call and one Ledger upsert when the
spec's `has_changed` predicate holds for the item, and none otherwise; and
after any successful processing, re-processing the byte-identical item is a
no-op — zero Analyzer calls, zero Ledger writes, state unchanged — which,
iterated, covers the second and all subsequent cycles. -/
theorem c2_dispatch_iff_changed (env : LocalEnv) (ledger : Ledger) (sink : Sink)
    (it : LocalItem)
    (htxt : pyEndsWith it.filename ".txt" = true)
    (hr : env.readFails (relPath it) = false)
    (hw : env.writeFails (relPath it) = false)
    (hg : env.getErr (relPath it) = false)
    (hu : env.upsertErr (relPath it) = false) :
    ∀ l1 s1 a w, processItem env ledger sink it = .ok (l1, s1, a, w) →
      ((a = 1 ∧ w = 1) ∨ (a = 0 ∧ w = 0))
      ∧ ((a = 1 ∧ w = 1) ↔ spec_has_changed ledger (relPath it) (env.md5 it.content))
      ∧ processItem env l1 s1 it = .ok (l1, s1, 0, 0) := by
  intro l1 s1 a w hrun
  rw [processItem_run env ledger sink it htxt hr hw hg] at hrun
  by_cases hch : some (env.md5 it.content) ≠ (get_file_state false ledger (relPath it)).1
  · rw [if_pos hch] at hrun
    simp only [Except.ok.injEq, Prod.mk.injEq] at hrun
    obtain ⟨hl1, hs1, ha, hw'⟩ := hrun
    subst hl1 hs1 ha hw'
    refine ⟨Or.inl ⟨rfl, rfl⟩, ?_, ?_⟩
    · simp [(changed_iff ledger (relPath it) (env.md5 it.content)).mp hch]
    · apply processItem_noop env _ _ it htxt hr hg
      simp [get_file_state, update_file_state, hu, lookupKey]
  · rw [if_neg hch] at hrun
    simp only [Except.ok.injEq, Prod.mk.injEq] at hrun
    obtain ⟨hl1, hs1, ha, hw'⟩ := hrun
    subst hl1 hs1 ha hw'
    refine ⟨Or.inr ⟨rfl, rfl⟩, ?_, ?_⟩
    · constructor
      · rintro ⟨h01, -⟩
        exact absurd h01 (by omega)
      · intro hspec
        exact absurd ((changed_iff ledger (relPath it) (env.md5 it.content)).mpr hspec) hch
    · push_neg at hch
      exact processItem_noop env ledger sink it htxt hr hg hch.symm

theorem c2_dispatch_iff_changed_witness :
    ((1 = 1 ∧ 1 = 1) ∨ (1 = 0 ∧ 1 = 0))
    ∧ ((1 = 1 ∧ 1 = 1) ↔ spec_has_changed [] (relPath c2Item) (c2Env.md5 c2Item.content))
    ∧ processItem c2Env c2RunLedger c2RunSink c2Item = .ok (c2RunLedger, c2RunSink, 0, 0) :=
  c2_dispatch_iff_changed c2Env [] [] c2Item (by decide) rfl rfl rfl rfl
    c2RunLedger c2RunSink 1 1 rfl

/-- C3 counterexample: after one fully successful remote processing of
`Vendedor_Ana/cliente1.txt` the object is gone from the input bucket and
exactly one report (name containing `cliente1` and the timestamp) sits in the
output bucket, but the Memory Ledger record's `last_summary` for that key is
null — `cloud_worker.py` never writes the `sales_memory` table, so the
claim's "non-null `last_summary`" is false on the code. -/
theorem c3_remote_ledger_summary_is_null :
    process_file c3Env c3St "Vendedor_Ana/cliente1.txt" =
      (⟨[], [("RELATORIO_Vendedor_Ana_cliente1.txt_1700000000.md", "analise")], []⟩, true)
    ∧ (get_file_state false
        (process_file c3Env c3St "Vendedor_Ana/cliente1.txt").1.ledger
        "Vendedor_Ana/cliente1.txt").2 = none :=
  ⟨rfl, rfl⟩

/-- C3 (amended): in remote mode, after one successful processing of
`Vendedor_Ana/cliente1.txt` (download, analysis, upload and removal all
succeed), the object no longer exists in the input bucket, and — when the
output bucket started empty — exactly one object exists there, named
`RELATORIO_Vendedor_Ana_cliente1.txt_<timestamp>.md` (containing `cliente1`
and the wall-clock timestamp); the Memory Ledger is left untouched (the
remote variant never writes it, so its record for the key keeps whatever
state it had, with no `last_summary` created). -/
theorem c3_remote_success_effects (env : CloudEnv) (st : CloudState)
    (content analysis : String)
    (hin : lookupKey st.bucketIn "Vendedor_Ana/cliente1.txt" = some content)
    (hout : st.bucketOut = [])
    (hdl : env.dlFails "Vendedor_Ana/cliente1.txt" = false)
    (hllm : env.llm "Vendedor_Ana/cliente1.txt" = .ok analysis)
    (hup : env.upFails "Vendedor_Ana/cliente1.txt" = false)
    (hrm : env.rmFails "Vendedor_Ana/cliente1.txt" = false) :
    process_file env st "Vendedor_Ana/cliente1.txt" =
      ({ bucketIn := removeKey st.bucketIn "Vendedor_Ana/cliente1.txt",
         bucketOut := [(cloud_report_name "Vendedor_Ana/cliente1.txt"
             (env.clock "Vendedor_Ana/cliente1.txt"), analysis)],
         ledger := st.ledger }, true)
    ∧ lookupKey (process_file env st "Vendedor_Ana/cliente1.txt").1.bucketIn
        "Vendedor_Ana/cliente1.txt" = none
    ∧ (process_file env st "Vendedor_Ana/cliente1.txt").1.ledger = st.ledger := by
  have h1 : process_file env st "Vendedor_Ana/cliente1.txt" =
      ({ bucketIn := removeKey st.bucketIn "Vendedor_Ana/cliente1.txt",
         bucketOut := [(cloud_report_name "Vendedor_Ana/cliente1.txt"
             (env.clock "Vendedor_Ana/cliente1.txt"), analysis)],
         ledger := st.ledger }, true) := by
    simp [process_file, hdl, hin, hllm, hup, hrm, hout]
  refine ⟨h1, ?_, ?_⟩ <;> rw [h1]
  exact lookupKey_removeKey_self st.bucketIn "Vendedor_Ana/cliente1.txt"

theorem c3_remote_success_effects_witness :
    process_file c3Env c3St "Vendedor_Ana/cliente1.txt" =
      ({ bucketIn := removeKey c3St.bucketIn "Vendedor_Ana/cliente1.txt",
         bucketOut := [(cloud_report_name "Vendedor_Ana/cliente1.txt"
             (c3Env.clock "Vendedor_Ana/cliente1.txt"), "analise")],
         ledger := c3St.ledger }, true)
    ∧ lookupKey (process_file c3Env c3St "Vendedor_Ana/cliente1.txt").1.bucketIn
        "Vendedor_Ana/cliente1.txt" = none
    ∧ (process_file c3Env c3St "Vendedor_Ana/cliente1.txt").1.ledger = c3St.ledger :=
  c3_remote_success_effects c3Env c3St "ola" "analise" (by decide) rfl rfl rfl rfl rfl

/-- C4 counterexample: for the marker-free response `""` with prior summary
`"S"`, the code returns `new_summary = "Resumo mantido."`, NOT the previous
summary `"S"` (the claim's fallback-to-previous never happens: the literal
is returned whether or not a prior summary exists), and the returned report
is empty rather than a non-empty placeholder. -/
theorem c4_missing_marker_discards_previous_summary :
    analyze_update (some "S") (.ok "") = ("", some "Resumo mantido.")
    ∧ (analyze_update (some "S") (.ok "")).2 ≠ some "S"
    ∧ (analyze_update (some "S") (.ok "")).1 = "" :=
  ⟨by decide, by decide, by decide⟩

/-- C4 (amended): for every Analyzer response whose text does not contain the
`[RESUMO]` marker (`split` returns the whole text as its only part),
`new_summary` is the fixed default placeholder `"Resumo mantido."` regardless
of any prior summary, the report is the response text with the `[RELATORIO]`
marker removed and whitespace stripped (possibly empty), and the call never
raises past the item boundary (`analyze_update` is total). -/
theorem c4_missing_marker_placeholder_summary (previous_summary : Option String)
    (content : String) (h : pySplit content "[RESUMO]" = [content]) :
    analyze_update previous_summary (.ok content) =
      (pyStrip (pyReplace content "[RELATORIO]" ""), some "Resumo mantido.") := by
  simp [analyze_update, h]

theorem c4_missing_marker_placeholder_summary_witness :
    pySplit "texto sem marcador" "[RESUMO]" = ["texto sem marcador"]
    ∧ analyze_update (some "S") (.ok "texto sem marcador") =
        (pyStrip (pyReplace "texto sem marcador" "[RELATORIO]" ""), some "Resumo mantido.") :=
  ⟨by decide,
    c4_missing_marker_placeholder_summary (some "S") "texto sem marcador" (by decide)⟩

/-- C5: every listing entry — whether a bare filename or a full prefixed
path — is normalized to the canonical `owner/filename` key before
`process_file` receives it, so both historical response shapes for the same
object yield the same key (and `process_file` downloads and deletes through
that single key argument). -/
theorem c5_normalize_listing_shapes (vendedor bare : String)
    (h : pyContainsChar bare '/' = false) :
    normalize_listing_name vendedor bare = vendedor ++ "/" ++ bare
    ∧ normalize_listing_name vendedor (vendedor ++ "/" ++ bare) =
        vendedor ++ "/" ++ bare := by
  constructor
  · simp [normalize_listing_name, h]
  · have hc : pyContainsChar (vendedor ++ "/" ++ bare) '/' = true := by
      unfold pyContainsChar
      rw [string_data_append, string_data_append]
      have he : vendedor.data ++ "/".data ++ bare.data =
          vendedor.data ++ '/' :: bare.data := by
        rw [List.append_assoc]
        rfl
      rw [he]
      exact contains_char_append_middle vendedor.data bare.data
    simp [normalize_listing_name, hc]

theorem c5_normalize_listing_shapes_witness :
    pyContainsChar "cliente1.txt" '/' = false
    ∧ normalize_listing_name "Vendedor_Ana" "cliente1.txt" =
        "Vendedor_Ana" ++ "/" ++ "cliente1.txt"
    ∧ normalize_listing_name "Vendedor_Ana" ("Vendedor_Ana" ++ "/" ++ "cliente1.txt") =
        "Vendedor_Ana" ++ "/" ++ "cliente1.txt" :=
  ⟨by decide,
    (c5_normalize_listing_shapes "Vendedor_Ana" "cliente1.txt" (by decide)).1,
    (c5_normalize_listing_shapes "Vendedor_Ana" "cliente1.txt" (by decide)).2⟩

/-- C6 counterexample: with the listing call failing, the cycle is aborted
and the state untouched, but the sleep before the next enumeration is the
SAME 30 seconds as the steady-state poll interval — both branches of
`worker_loop` call `time.sleep(30)` — refuting the claim's "extended backoff
duration strictly different from the steady-state poll interval". -/
theorem c6_enumeration_backoff_equals_poll_interval :
    (worker_cycle c6EnvFail c6St).2 = (worker_cycle c6EnvOk c6St).2
    ∧ (worker_cycle c6EnvFail c6St).2 = 30
    ∧ worker_cycle c6EnvFail c6St = (c6St, 30) :=
  ⟨rfl, rfl, rfl⟩

/-- C6 (amended): every cycle — enumeration failure or not — sleeps exactly
30 seconds before the next enumeration (there is no extended backoff), and a
cycle whose very first listing call fails is aborted early with the whole
state (input bucket, Report Sink, Ledger) untouched. -/
theorem c6_enumeration_failure_aborts_cycle (env : CloudEnv) (st : CloudState) :
    (worker_cycle env st).2 = 30
    ∧ (env.listing "Vendedor_Ana" = .error () → worker_cycle env st = (st, 30)) := by
  refine ⟨worker_cycle_go_sleep env vendedores st, ?_⟩
  intro h
  simp [worker_cycle, vendedores, worker_cycle_go, h]

theorem c6_enumeration_failure_aborts_cycle_witness :
    (worker_cycle c6EnvFail c6St).2 = 30
    ∧ worker_cycle c6EnvFail c6St = (c6St, 30) :=
  ⟨(c6_enumeration_failure_aborts_cycle c6EnvFail c6St).1,
   (c6_enumeration_failure_aborts_cycle c6EnvFail c6St).2 rfl⟩

/-- C7 counterexample: in the local variant, a read error on the first item
aborts the whole cycle — the exception escapes `start_watchdog`'s loop body
(which catches only `KeyboardInterrupt`) and the second item is never
processed — refuting "the poll loop catches and logs it and proceeds to the
next item" and "no item-level failure terminates the process". -/
theorem c7_local_read_error_kills_cycle :
    runCycleLocal c7Env [] [] [c7Bad, c7Good] = .error () :=
  rfl

/-- C7 (amended): item-failure policy as implemented.  In the local variant a
file-read exception — and likewise a report-write exception on a changed
item — propagates out of the cycle (terminating the process), while an
Analyzer/transport failure is caught inside `analyze_update` and the item
completes; in the remote variant every per-item exception is caught by
`process_file` itself, so a failed item leaves the state unchanged and the
loop proceeds to the next entry. -/
theorem c7_item_failure_policy :
    (∀ (env : LocalEnv) (ledger : Ledger) (sink : Sink) (it : LocalItem)
        (rest : List LocalItem),
        pyEndsWith it.filename ".txt" = true →
        env.readFails (relPath it) = true →
        runCycleLocal env ledger sink (it :: rest) = .error ())
    ∧ (∀ (env : LocalEnv) (ledger : Ledger) (sink : Sink) (it : LocalItem)
        (rest : List LocalItem),
        pyEndsWith it.filename ".txt" = true →
        env.readFails (relPath it) = false →
        env.writeFails (relPath it) = true →
        some (env.md5 it.content) ≠
          (get_file_state (env.getErr (relPath it)) ledger (relPath it)).1 →
        runCycleLocal env ledger sink (it :: rest) = .error ())
    ∧ (∀ (env : LocalEnv) (ledger : Ledger) (sink : Sink) (it : LocalItem),
        pyEndsWith it.filename ".txt" = true →
        env.readFails (relPath it) = false →
        env.writeFails (relPath it) = false →
        env.llm (relPath it) = .error () →
        ∃ out, processItem env ledger sink it = .ok out)
    ∧ (∀ (env : CloudEnv) (st : CloudState) (v e : String) (es : List String),
        pyEndsWith e ".txt" = true →
        (process_file env st (normalize_listing_name v e)).1 = st →
        processEntries env v st (e :: es) = processEntries env v st es) := by
  refine ⟨?_, ?_, ?_, ?_⟩
  · intro env ledger sink it rest h1 h2
    have hpi : processItem env ledger sink it = .error () := by
      simp [processItem, h1, h2]
    simp only [runCycleLocal, hpi]
    rfl
  · intro env ledger sink it rest h1 h2 h3 h4
    have hpi : processItem env ledger sink it = .error () := by
      simp [processItem, h1, h2, h3, h4]
    simp only [runCycleLocal, hpi]
    rfl
  · intro env ledger sink it h1 h2 h3 h4
    by_cases hch : some (env.md5 it.content) =
        (get_file_state (env.getErr (relPath it)) ledger (relPath it)).1
    · exact ⟨(ledger, sink, 0, 0), by simp [processItem, h1, h2, h3, hch]⟩
    · exact ⟨(update_file_state (env.upsertErr (relPath it)) ledger (relPath it) it.folder
          (env.md5 it.content)
          (analyze_update (get_file_state (env.getErr (relPath it)) ledger (relPath it)).2
            (env.llm (relPath it))).2,
        sink_write sink (report_path it.folder it.filename (env.clock (relPath it)))
          (analyze_update (get_file_state (env.getErr (relPath it)) ledger (relPath it)).2
            (env.llm (relPath it))).1, 1, 1),
        by simp [processItem, h1, h2, h3, hch]⟩
  · intro env st v e es h1 h2
    simp [processEntries, h1, h2]

theorem c7_item_failure_policy_witness :
    runCycleLocal c7Env [] [] [c7Bad, c7Good] = .error ()
    ∧ runCycleLocal c7EnvWrite [] [] [c7Bad, c7Good] = .error ()
    ∧ (∃ out, processItem c7EnvLLM [] [] c7Bad = .ok out)
    ∧ processEntries c7CloudEnv "Vendedor_Ana" c7CloudSt ["cliente1.txt"] =
        processEntries c7CloudEnv "Vendedor_Ana" c7CloudSt [] :=
  ⟨c7_item_failure_policy.1 c7Env [] [] c7Bad [c7Good] (by decide) rfl,
   c7_item_failure_policy.2.1 c7EnvWrite [] [] c7Bad [c7Good] (by decide) rfl rfl
     (by decide),
   c7_item_failure_policy.2.2.1 c7EnvLLM [] [] c7Bad (by decide) rfl rfl rfl,
   c7_item_failure_policy.2.2.2 c7CloudEnv c7CloudSt "Vendedor_Ana" "cliente1.txt" []
     (by decide) rfl⟩

/-- C8: a ledger lookup error returns the no-prior-state value
`(None, None)` instead of propagating, and the item is still processed in
the same cycle (one Analyzer call and one Ledger upsert — degradation to
reprocessing), rather than the cycle aborting. -/
theorem c8_ledger_lookup_fails_soft (env : LocalEnv) (ledger : Ledger)
    (sink : Sink) (it : LocalItem)
    (htxt : pyEndsWith it.filename ".txt" = true)
    (hget : env.getErr (relPath it) = true)
    (hr : env.readFails (relPath it) = false)
    (hw : env.writeFails (relPath it) = false) :
    get_file_state true ledger (relPath it) = (none, none)
    ∧ ∃ l1 s1, processItem env ledger sink it = .ok (l1, s1, 1, 1) := by
  refine ⟨rfl,
    update_file_state (env.upsertErr (relPath it)) ledger (relPath it) it.folder
      (env.md5 it.content) (analyze_update none (env.llm (relPath it))).2,
    sink_write sink (report_path it.folder it.filename (env.clock (relPath it)))
      (analyze_update none (env.llm (relPath it))).1, ?_⟩
  simp [processItem, htxt, hget, hr, hw, get_file_state]

theorem c8_ledger_lookup_fails_soft_witness :
    get_file_state true [("Ana/f.txt", ⟨"Ana", "h", some "S"⟩)]
        (relPath ⟨"Ana", "f.txt", "c"⟩) = (none, none)
    ∧ ∃ l1 s1, processItem c8Env [("Ana/f.txt", ⟨"Ana", "h", some "S"⟩)] []
        ⟨"Ana", "f.txt", "c"⟩ = .ok (l1, s1, 1, 1) :=
  c8_ledger_lookup_fails_soft c8Env [("Ana/f.txt", ⟨"Ana", "h", some "S"⟩)] []
    ⟨"Ana", "f.txt", "c"⟩ (by decide) rfl rfl rfl

/-- C9 counterexample: two distinct report writes in the same wall-clock
second, for the `.txt` files `a.txt` and `a.txt.txt` of the same owner,
derive the SAME stored name (Python's `filename.replace('.txt', '')` strips
both occurrences), and the second write overwrites the first in the sink. -/
theorem c9_same_second_name_collision :
    report_filename "a.txt" 100 = report_filename "a.txt.txt" 100
    ∧ ("a.txt" : String) ≠ "a.txt.txt"
    ∧ pyEndsWith "a.txt.txt" ".txt" = true
    ∧ lookupKey
        (sink_write (sink_write [] (report_filename "a.txt" 100) "r1")
          (report_filename "a.txt.txt" 100) "r2")
        (report_filename "a.txt" 100) = some "r2" :=
  ⟨by decide, by decide, by decide, by decide⟩

/-- C9 (amended): the stored name is a deterministic function of the source
filename and the wall-clock second; for a FIXED source filename, two report
writes receive distinct names exactly when their timestamps differ (decimal
rendering of the timestamp is injective), so repeated analyses of the same
file at different seconds never overwrite each other.  (Uniqueness across
*all* pairs of writes fails: see the counterexample.) -/
theorem c9_same_file_distinct_names_iff_distinct_timestamps :
    ∀ (filename : String) (t1 t2 : Nat),
      report_filename filename t1 = report_filename filename t2 ↔ t1 = t2 := by
  intro f t1 t2
  constructor
  · intro h
    have hd := congrArg String.data h
    simp only [report_filename, string_data_append] at hd
    have h1 := List.append_cancel_right hd
    have h4 := List.append_cancel_left h1
    rw [natToString_data, natToString_data] at h4
    exact decDigits_injective t1 t2 h4
  · rintro rfl
    rfl

/-- C10: in the remote variant the input object is removed only after the
report upload completed: every execution in which download, analysis or
upload raises leaves the whole state — in particular the input object — in
place (and reports failure), and every successful execution has deleted the
input object and stored the analysis in the output bucket under the derived
report name. -/
theorem c10_input_retained_unless_uploaded (env : CloudEnv) (st : CloudState)
    (fp : String) :
    ((env.dlFails fp = true ∨ lookupKey st.bucketIn fp = none
        ∨ env.llm fp = .error () ∨ env.upFails fp = true) →
      (process_file env st fp).1 = st ∧ (process_file env st fp).2 = false)
    ∧ ((process_file env st fp).2 = true →
        lookupKey (process_file env st fp).1.bucketIn fp = none
        ∧ ∃ analysis, env.llm fp = .ok analysis
            ∧ lookupKey (process_file env st fp).1.bucketOut
                (cloud_report_name fp (env.clock fp)) = some analysis) := by
  by_cases hdl : env.dlFails fp = true
  · constructor
    · intro h
      simp [process_file, hdl]
    · intro hsucc
      rw [show process_file env st fp = (st, false) from by simp [process_file, hdl]] at hsucc
      cases hsucc
  · simp only [Bool.not_eq_true] at hdl
    cases hlk : lookupKey st.bucketIn fp with
    | none =>
      constructor
      · intro h
        simp [process_file, hdl, hlk]
      · intro hsucc
        rw [show process_file env st fp = (st, false) from by
          simp [process_file, hdl, hlk]] at hsucc
        cases hsucc
    | some c =>
      cases hllm : env.llm fp with
      | error e =>
        constructor
        · intro h
          simp [process_file, hdl, hlk, hllm]
        · intro hsucc
          rw [show process_file env st fp = (st, false) from by
            simp [process_file, hdl, hlk, hllm]] at hsucc
          cases hsucc
      | ok analysis =>
        by_cases hup : env.upFails fp = true
        · constructor
          · intro h
            simp [process_file, hdl, hlk, hllm, hup]
          · intro hsucc
            rw [show process_file env st fp = (st, false) from by
              simp [process_file, hdl, hlk, hllm, hup]] at hsucc
            cases hsucc
        · simp only [Bool.not_eq_true] at hup
          constructor
          · rintro (h | h | h | h)
            · simp [hdl] at h
            · simp at h
            · simp at h
            · simp [hup] at h
          · by_cases hrm : env.rmFails fp = true
            · intro hsucc
              rw [show (process_file env st fp).2 = false from by
                simp [process_file, hdl, hlk, hllm, hup, hrm]] at hsucc
              cases hsucc
            · simp only [Bool.not_eq_true] at hrm
              intro _
              have hres : process_file env st fp =
                  ({ bucketIn := removeKey st.bucketIn fp,
                     bucketOut := (cloud_report_name fp (env.clock fp), analysis) :: st.bucketOut,
                     ledger := st.ledger }, true) := by
                simp [process_file, hdl, hlk, hllm, hup, hrm]
              rw [hres]
              exact ⟨lookupKey_removeKey_self st.bucketIn fp, analysis, rfl,
                by simp [lookupKey]⟩

theorem c10_input_retained_unless_uploaded_witness :
    ((process_file c10EnvFail c10St "Vendedor_Ana/c.txt").1 = c10St
      ∧ (process_file c10EnvFail c10St "Vendedor_Ana/c.txt").2 = false)
    ∧ (lookupKey (process_file c10EnvOk c10St "Vendedor_Ana/c.txt").1.bucketIn
          "Vendedor_Ana/c.txt" = none
      ∧ ∃ analysis, c10EnvOk.llm "Vendedor_Ana/c.txt" = .ok analysis
          ∧ lookupKey (process_file c10EnvOk c10St "Vendedor_Ana/c.txt").1.bucketOut
              (cloud_report_name "Vendedor_Ana/c.txt"
                (c10EnvOk.clock "Vendedor_Ana/c.txt")) = some analysis) :=
  ⟨(c10_input_retained_unless_uploaded c10EnvFail c10St "Vendedor_Ana/c.txt").1 (Or.inl rfl),
   (c10_input_retained_unless_uploaded c10EnvOk c10St "Vendedor_Ana/c.txt").2 rfl⟩
